import Mathlib

/-!
Shallow embedding of the receipt ingestion pipeline of the expensee-api
repository: the amount / date normalizers of `src/utils/aws.py`, the image
preprocessor of `src/utils/gemini.py`, and the upload / accept routes of
`src/app/api/routes/receipts.py`, together with theorems checking the
specification's claims about them.

Conventions: UUIDs are modelled as `Nat`, money columns as `Int`, Python
`Decimal`/`float` values as `ℚ`, and the database as an explicit record of
rows.  Fallible Python code is modelled with `Option`/`Except`; a raised
exception that an HTTP handler turns into an error response becomes an
`Except.error`.
-/

/-! ## Python string helpers -/

/-- Numeric value of an ASCII digit character. -/
def digitVal (c : Char) : Nat := c.toNat - 48

/-- The `Nat` denoted by a list of ASCII digit characters (most significant
first), as Python `int` reads an all-digit string. -/
def digitsToNat (cs : List Char) : Nat :=
  cs.foldl (fun a c => 10 * a + digitVal c) 0

/-- Python `int(s)` on a string of an optional sign followed by digits;
`none` models the `ValueError` that any other input raises. -/
def pyInt? (cs : List Char) : Option Int :=
  match cs with
  | '-' :: ds =>
    if ds ≠ [] ∧ ds.all Char.isDigit then some (-(digitsToNat ds : Int)) else none
  | '+' :: ds =>
    if ds ≠ [] ∧ ds.all Char.isDigit then some (digitsToNat ds : Int) else none
  | ds =>
    if ds ≠ [] ∧ ds.all Char.isDigit then some (digitsToNat ds : Int) else none

/-- Python `s.split(',')`: the comma-separated groups of a character list. -/
def splitComma : List Char → List (List Char)
  | [] => [[]]
  | ',' :: cs => [] :: splitComma cs
  | c :: cs =>
    match splitComma cs with
    | [] => [[c]]
    | g :: gs => (c :: g) :: gs

/-! ## Amount normalization (`src/utils/aws.py`)

`_validate_amount_str` strips every character other than digits, `,` and
`.`, then disambiguates the separators; `_extract_total_amount` feeds its
output to `float(...)` (`ValueError` → `None`), and
`_validate_total_amount` maps `None` and non-positive amounts to `0.0` and
rounds the rest to two decimals. -/

/-- `_validate_amount_str` of `src/utils/aws.py` (lines 239-252), on the
character level.  Note that Python's `str.index` returns the index of the
FIRST occurrence, so the `both separators present` branch compares first
occurrences. -/
def validate_amount_str (s : String) : String :=
  let cs := s.toList.filter (fun c => c.isDigit || c = ',' || c = '.')
  if cs.contains ',' && cs.contains '.' then
    if cs.indexOf ',' > cs.indexOf '.' then
      String.mk (cs.filter (· ≠ ','))
    else
      String.mk ((cs.filter (· ≠ '.')).map (fun c => if c = ',' then '.' else c))
  else if cs.contains ',' then
    let parts := splitComma cs
    if parts.length > 1 && (parts.getLastD []).length ≤ 2 then
      String.mk (cs.map (fun c => if c = ',' then '.' else c))
    else
      String.mk (cs.filter (· ≠ ','))
  else
    String.mk cs

/-- The separator disambiguation as the specification words it, for
comparison with `validate_amount_str` (refinement check): when both `,` and
`.` appear, the one occurring later in the string is the decimal separator
and the other is stripped; the comma-only and no-comma branches are as in
the source. -/
def spec_amount_separator_rule (s : String) : String :=
  let cs := s.toList.filter (fun c => c.isDigit || c = ',' || c = '.')
  if cs.contains ',' && cs.contains '.' then
    if cs.indexOf ',' > cs.indexOf '.' then
      String.mk ((cs.filter (· ≠ '.')).map (fun c => if c = ',' then '.' else c))
    else
      String.mk (cs.filter (· ≠ ','))
  else if cs.contains ',' then
    let parts := splitComma cs
    if parts.length > 1 && (parts.getLastD []).length ≤ 2 then
      String.mk (cs.map (fun c => if c = ',' then '.' else c))
    else
      String.mk (cs.filter (· ≠ ','))
  else
    String.mk cs

/-- Python `float(s)` restricted to the strings `validate_amount_str` can
produce (digits and dots): at least one digit and at most one dot parse to
the exact rational value; anything else raises `ValueError`, modelled as
`none`. -/
def pyFloat? (s : String) : Option ℚ :=
  let cs := s.toList
  if cs.any Char.isDigit ∧ cs.all (fun c => c.isDigit || c = '.') ∧ cs.count '.' ≤ 1 then
    let ip := cs.takeWhile (· ≠ '.')
    let fp := (cs.dropWhile (· ≠ '.')).drop 1
    some ((digitsToNat ip : ℚ) + (digitsToNat fp : ℚ) / ((10 : ℚ) ^ fp.length))
  else none

/-- Round half to even, as Python's `round` resolves ties (the binary
representation error of `float` is idealized away: values here are exact
rationals). -/
def roundHalfEven (q : ℚ) : ℤ :=
  if q - ⌊q⌋ < 1 / 2 then ⌊q⌋
  else if 1 / 2 < q - ⌊q⌋ then ⌊q⌋ + 1
  else if ⌊q⌋ % 2 = 0 then ⌊q⌋ else ⌊q⌋ + 1

/-- Python `round(x, 2)`. -/
def pyRound2 (q : ℚ) : ℚ := (roundHalfEven (q * 100) : ℚ) / 100

/-- `_validate_total_amount` of `src/utils/aws.py` (lines 307-310):
`None` or non-positive → `0.0`, else round to two decimals. -/
def validate_total_amount (a : Option ℚ) : ℚ :=
  match a with
  | none => 0
  | some x => if x ≤ 0 then 0 else pyRound2 x

/-- The amount pipeline of `_extract_total_amount` (lines 227-237) composed
with `_validate_total_amount`: clean the raw string, parse it as a float
(`ValueError` → `None`), then validate. -/
def normalize_amount (s : String) : ℚ :=
  validate_total_amount (pyFloat? (validate_amount_str s))

/-! ## Date normalization (`src/utils/aws.py`, `_validate_date`)

A faithful embedding of CPython `datetime.strptime` restricted to the
directives the source's format list uses (`%m %d %Y %y %b %B`, literal
separators, and whitespace).  Each directive is matched by the ordered
alternatives of `_strptime`'s regular expressions; the whole input must be
consumed; matching of month names is case-insensitive; the parsed triple
must be a valid calendar date, else `ValueError` (modelled as `none`). -/

/-- A calendar date as `datetime` carries it (year, month, day). -/
structure PyDate where
  year : Nat
  month : Nat
  day : Nat
deriving DecidableEq

/-- Gregorian leap year. -/
def isLeap (y : Nat) : Bool := y % 4 = 0 && (y % 100 ≠ 0 || y % 400 = 0)

/-- Days in a month, as `datetime`'s validity check uses. -/
def daysInMonth (y m : Nat) : Nat :=
  if m = 2 then (if isLeap y then 29 else 28)
  else if m = 4 ∨ m = 6 ∨ m = 9 ∨ m = 11 then 30
  else 31

/-- `%m`: the ordered regex alternatives `1[0-2] | 0[1-9] | [1-9]`. -/
def matchMonthNum (cs : List Char) : Option (Nat × List Char) :=
  match cs with
  | c1 :: c2 :: rest =>
    if c1 = '1' && '0' ≤ c2 && c2 ≤ '2' then some (10 + digitVal c2, rest)
    else if c1 = '0' && '1' ≤ c2 && c2 ≤ '9' then some (digitVal c2, rest)
    else if '1' ≤ c1 && c1 ≤ '9' then some (digitVal c1, c2 :: rest)
    else none
  | [c1] => if '1' ≤ c1 && c1 ≤ '9' then some (digitVal c1, []) else none
  | [] => none

/-- `%d`: the ordered regex alternatives `3[01] | [12][0-9] | 0[1-9] | [1-9]`. -/
def matchDayNum (cs : List Char) : Option (Nat × List Char) :=
  match cs with
  | c1 :: c2 :: rest =>
    if c1 = '3' && (c2 = '0' || c2 = '1') then some (30 + digitVal c2, rest)
    else if (c1 = '1' || c1 = '2') && c2.isDigit then some (10 * digitVal c1 + digitVal c2, rest)
    else if c1 = '0' && '1' ≤ c2 && c2 ≤ '9' then some (digitVal c2, rest)
    else if '1' ≤ c1 && c1 ≤ '9' then some (digitVal c1, c2 :: rest)
    else none
  | [c1] => if '1' ≤ c1 && c1 ≤ '9' then some (digitVal c1, []) else none
  | [] => none

/-- `%Y`: exactly four digits. -/
def matchYear4 (cs : List Char) : Option (Nat × List Char) :=
  match cs with
  | c1 :: c2 :: c3 :: c4 :: rest =>
    if c1.isDigit && c2.isDigit && c3.isDigit && c4.isDigit then
      some (1000 * digitVal c1 + 100 * digitVal c2 + 10 * digitVal c3 + digitVal c4, rest)
    else none
  | _ => none

/-- `%y`: exactly two digits; `_strptime` maps `00..68` to `2000..2068` and
`69..99` to `1969..1999`. -/
def matchYear2 (cs : List Char) : Option (Nat × List Char) :=
  match cs with
  | c1 :: c2 :: rest =>
    if c1.isDigit && c2.isDigit then
      let v := 10 * digitVal c1 + digitVal c2
      some (if v ≤ 68 then 2000 + v else 1900 + v, rest)
    else none
  | _ => none

/-- The abbreviated month names of the C locale, as `%b` matches them. -/
def monthAbbrevs : List (List Char × Nat) :=
  [(("jan").toList, 1), (("feb").toList, 2), (("mar").toList, 3),
   (("apr").toList, 4), (("may").toList, 5), (("jun").toList, 6),
   (("jul").toList, 7), (("aug").toList, 8), (("sep").toList, 9),
   (("oct").toList, 10), (("nov").toList, 11), (("dec").toList, 12)]

/-- The full month names of the C locale, longest first, as `%B`'s
alternation is built (`_strptime` sorts by length, descending). -/
def monthFullNames : List (List Char × Nat) :=
  [(("september").toList, 9), (("february").toList, 2), (("november").toList, 11),
   (("december").toList, 12), (("january").toList, 1), (("october").toList, 10),
   (("august").toList, 8), (("march").toList, 3), (("april").toList, 4),
   (("june").toList, 6), (("july").toList, 7), (("may").toList, 5)]

/-- Case-insensitive match of the first table entry that is a prefix of the
input, returning its month number and the rest of the input. -/
def matchMonthName (tbl : List (List Char × Nat)) (cs : List Char) : Option (Nat × List Char) :=
  match tbl with
  | [] => none
  | (nm, v) :: rest =>
    if (cs.take nm.length).map Char.toLower = nm then some (v, cs.drop nm.length)
    else matchMonthName rest cs

/-- One-or-more whitespace characters (a literal blank in a strptime format
is compiled to the regex `\s+`). -/
def matchWhitespaceRun (cs : List Char) : Option (List Char) :=
  match cs with
  | c :: rest => if c.isWhitespace then some (rest.dropWhile Char.isWhitespace) else none
  | [] => none

/-- A directive of the strptime formats the source uses. -/
inductive DTok where
  | dirM | dirD | dirY4 | dirY2 | dirMonAbbrev | dirMonFull
  | lit (c : Char)
  | blank
deriving DecidableEq

/-- The (year?, month?, day?) fields accumulated while matching a format. -/
structure DateParts where
  y : Option Nat := none
  m : Option Nat := none
  d : Option Nat := none
deriving DecidableEq

/-- Match a token list against the input; the whole input must be consumed
(`_strptime` raises on unconverted data). -/
def runFmt : List DTok → List Char → DateParts → Option DateParts
  | [], cs, acc => if cs = [] then some acc else none
  | .dirM :: ts, cs, acc =>
    match matchMonthNum cs with
    | some (v, rest) => runFmt ts rest { acc with m := some v }
    | none => none
  | .dirD :: ts, cs, acc =>
    match matchDayNum cs with
    | some (v, rest) => runFmt ts rest { acc with d := some v }
    | none => none
  | .dirY4 :: ts, cs, acc =>
    match matchYear4 cs with
    | some (v, rest) => runFmt ts rest { acc with y := some v }
    | none => none
  | .dirY2 :: ts, cs, acc =>
    match matchYear2 cs with
    | some (v, rest) => runFmt ts rest { acc with y := some v }
    | none => none
  | .dirMonAbbrev :: ts, cs, acc =>
    match matchMonthName monthAbbrevs cs with
    | some (v, rest) => runFmt ts rest { acc with m := some v }
    | none => none
  | .dirMonFull :: ts, cs, acc =>
    match matchMonthName monthFullNames cs with
    | some (v, rest) => runFmt ts rest { acc with m := some v }
    | none => none
  | .lit c :: ts, cs, acc =>
    match cs with
    | c0 :: rest => if c0 = c then runFmt ts rest acc else none
    | [] => none
  | .blank :: ts, cs, acc =>
    match matchWhitespaceRun cs with
    | some rest => runFmt ts rest acc
    | none => none

/-- `datetime.strptime(s, fmt)` for the formats in use: `none` models the
`ValueError` of a failed match or an invalid calendar date. -/
def strptime (fmt : List DTok) (s : String) : Option PyDate :=
  match runFmt fmt s.toList {} with
  | some parts =>
    match parts.y, parts.m, parts.d with
    | some y, some m, some d =>
      if 1 ≤ y ∧ y ≤ 9999 ∧ 1 ≤ m ∧ m ≤ 12 ∧ 1 ≤ d ∧ d ≤ daysInMonth y m then
        some ⟨y, m, d⟩
      else none
    | _, _, _ => none
  | none => none

def fmt_mdY_slash : List DTok := [.dirM, .lit '/', .dirD, .lit '/', .dirY4]
def fmt_dmY_slash : List DTok := [.dirD, .lit '/', .dirM, .lit '/', .dirY4]
def fmt_Ymd_slash : List DTok := [.dirY4, .lit '/', .dirM, .lit '/', .dirD]
def fmt_mdY_dash : List DTok := [.dirM, .lit '-', .dirD, .lit '-', .dirY4]
def fmt_dmY_dash : List DTok := [.dirD, .lit '-', .dirM, .lit '-', .dirY4]
def fmt_Ymd_dash : List DTok := [.dirY4, .lit '-', .dirM, .lit '-', .dirD]
def fmt_mdY_dot : List DTok := [.dirM, .lit '.', .dirD, .lit '.', .dirY4]
def fmt_dmY_dot : List DTok := [.dirD, .lit '.', .dirM, .lit '.', .dirY4]
def fmt_Ymd_dot : List DTok := [.dirY4, .lit '.', .dirM, .lit '.', .dirD]
def fmt_bdY : List DTok := [.dirMonAbbrev, .blank, .dirD, .lit ',', .blank, .dirY4]
def fmt_dbY : List DTok := [.dirD, .blank, .dirMonAbbrev, .blank, .dirY4]
def fmt_Ybd : List DTok := [.dirY4, .blank, .dirMonAbbrev, .blank, .dirD]
def fmt_BdY : List DTok := [.dirMonFull, .blank, .dirD, .lit ',', .blank, .dirY4]
def fmt_dBY : List DTok := [.dirD, .blank, .dirMonFull, .blank, .dirY4]
def fmt_YBd : List DTok := [.dirY4, .blank, .dirMonFull, .blank, .dirD]
def fmt_mdy_slash : List DTok := [.dirM, .lit '/', .dirD, .lit '/', .dirY2]
def fmt_dmy_slash : List DTok := [.dirD, .lit '/', .dirM, .lit '/', .dirY2]
def fmt_mdy_dash : List DTok := [.dirM, .lit '-', .dirD, .lit '-', .dirY2]
def fmt_dmy_dash : List DTok := [.dirD, .lit '-', .dirM, .lit '-', .dirY2]

/-- The fixed ordered format list of `_validate_date`
(`src/utils/aws.py` lines 315-323). -/
def date_formats : List (List DTok) :=
  [fmt_mdY_slash, fmt_dmY_slash, fmt_Ymd_slash,
   fmt_mdY_dash, fmt_dmY_dash, fmt_Ymd_dash,
   fmt_mdY_dot, fmt_dmY_dot, fmt_Ymd_dot,
   fmt_bdY, fmt_dbY, fmt_Ybd,
   fmt_BdY, fmt_dBY, fmt_YBd,
   fmt_mdy_slash, fmt_dmy_slash,
   fmt_mdy_dash, fmt_dmy_dash]

/-- The `for fmt in date_formats: try ... except ValueError: continue` loop:
the first format that parses wins. -/
def tryDateFormats : List (List DTok) → String → Option PyDate
  | [], _ => none
  | f :: fs, s =>
    match strptime f s with
    | some dt => some dt
    | none => tryDateFormats fs s

/-- ASCII digit character of `n % 10`. -/
def digitChar (n : Nat) : Char := Char.ofNat (48 + n % 10)

/-- `strftime('%Y-%m-%d')`: zero-padded canonical date string. -/
def canonDate (dt : PyDate) : String :=
  String.mk [digitChar (dt.year / 1000), digitChar (dt.year / 100),
             digitChar (dt.year / 10), digitChar dt.year, '-',
             digitChar (dt.month / 10), digitChar dt.month, '-',
             digitChar (dt.day / 10), digitChar dt.day]

/-- `_validate_date` of `src/utils/aws.py` (lines 312-330): empty input or
no matching format yield the current date (`today`); otherwise the first
matching format's date, reformatted canonically. -/
def validate_date (s : String) (today : PyDate) : String :=
  if s = "" then canonDate today
  else
    match tryDateFormats date_formats s with
    | some dt => canonDate dt
    | none => canonDate today

/-! ## Image preprocessor (`src/utils/gemini.py`, `preprocess_image`)

The loop is modelled on image dimensions: `enc w h` is the PNG-encoded byte
size of the (decoded) image at `w × h` pixels — an arbitrary function, since
the claims hold for every encoder.  The source first re-encodes the decoded
image, halves once up front if that exceeds the 400KB ceiling, then
iteratively re-encodes and halves until the encoding fits or a dimension has
reached 50 pixels (the `ValueError` guard around `resize` is unreachable for
the positive dimensions `max 1 _` produces, and the `new == old` guard can
only fire at `1 × 1`, below the 50-pixel check). -/

/-- The 400KB byte-size ceiling (`400 * 1024` in the source). -/
def sizeCeiling : Nat := 400 * 1024

/-- The `while True` halving loop of `preprocess_image`
(`src/utils/gemini.py` lines 157-180), returning the final dimensions: the
returned bytes are the encoding of the image at these dimensions. -/
def halveLoop (enc : Nat → Nat → Nat) (w h : Nat) : Nat × Nat :=
  if enc w h ≤ sizeCeiling then (w, h)
  else if w ≤ 50 ∨ h ≤ 50 then (w, h)
  else if max 1 (w / 2) = w ∧ max 1 (h / 2) = h then (w, h)
  else halveLoop enc (max 1 (w / 2)) (max 1 (h / 2))
termination_by w
decreasing_by
  simp only [not_or, not_le] at *
  omega

/-- `preprocess_image` on dimensions (`src/utils/gemini.py` lines 138-183):
one up-front halving when the initial encoding exceeds the ceiling, then the
halving loop. -/
def preprocess_image_dims (enc : Nat → Nat → Nat) (w h : Nat) : Nat × Nat :=
  if sizeCeiling < enc w h then halveLoop enc (max 1 (w / 2)) (max 1 (h / 2))
  else halveLoop enc w h

/-! ## Data model (`src/app/models`) and the receipt routes -/

/-- `ReceiptStatus` of `src/app/models/receipt.py`. -/
inductive ReceiptStatus where
  | pending | processed | accepted | rejected
deriving DecidableEq

/-- An `ocr_results` row (`src/app/models/ocr_result.py`): the draft a
receipt upload creates.  Nullable columns are `Option`s. -/
structure Draft where
  userId : Nat
  imagePath : String := ""
  merchantName : Option String := none
  totalAmount : Option Int := none
  transactionDate : Option PyDate := none
  paymentMethod : Option String := none
  categoryId : Option Nat := none
  userCategoryId : Option Nat := none
  status : ReceiptStatus
deriving DecidableEq

/-- An expense line item as the accept request carries it and
`expense_items` stores it. -/
structure ExpItem where
  name : String
  quantity : Nat
  unitPrice : Int
  totalPrice : Int
deriving DecidableEq

/-- An `expense_history` row (`src/app/models/expense_history.py`): the
ledger record an accepted draft creates. -/
structure ExpenseRecord where
  userId : Nat
  ocrId : Option Nat
  merchantName : String
  totalAmount : Int
  transactionDate : PyDate
  paymentMethod : Option String
  categoryId : Option Nat
  userCategoryId : Option Nat
  notes : Option String
  isManualEntry : Bool
  items : List ExpItem
deriving DecidableEq

/-- `AcceptOCRRequest` of `src/schemas/receipt.py`: every field the client
may override, plus the category choice and the replacement items. -/
structure AcceptOCRRequest where
  merchantName : Option String := none
  totalAmount : Option Int := none
  transactionDate : Option PyDate := none
  paymentMethod : Option String := none
  categoryId : Option Nat := none
  userCategoryId : Option Nat := none
  items : List ExpItem := []
  notes : Option String := none
deriving DecidableEq

/-- The error responses the receipt routes can produce, by `error_code`. -/
inductive ApiError where
  | validationError        -- 400 `validation_error` (bad file extension)
  | categoryNotSpecified   -- 400 `category_not_specified`
  | invalidState           -- 400 `ocr_result_has_been_accepted`
  | categoryNotFound       -- 400 `category_not_found`
  | resourceNotFound       -- 404 `resource_not_found`
  | serverError            -- 500 `server_error` (any uncaught exception)
deriving DecidableEq

/-- The database state the receipt routes read and write: drafts keyed by
`ocr_id`, the expense ledger, and the category reference tables (system
category ids, and user-category ids with their owner). -/
structure AppDB where
  drafts : List (Nat × Draft)
  expenses : List ExpenseRecord
  categories : List Nat
  userCategories : List (Nat × Nat)
deriving DecidableEq

/-- The `WHERE ocr_id == .. AND user_id == ..` filter of the draft queries. -/
def draftKey (oid uid : Nat) (p : Nat × Draft) : Bool :=
  p.1 == oid && p.2.userId == uid

/-- `select(OCRResult).where(ocr_id == .., user_id == ..)` followed by
`.first()` / `.scalar_one()`: the first matching draft row. -/
def lookupDraft (db : AppDB) (oid uid : Nat) : Option Draft :=
  (db.drafts.find? (draftKey oid uid)).map (·.2)

/-- Python `a or b` on optional strings: `None` and `""` are falsy. -/
def pyOrStr (a b : Option String) : Option String :=
  match a with
  | some s => if s = "" then b else some s
  | none => b

/-- Python `a or b` on optional amounts: `None` and `0` are falsy. -/
def pyOrInt (a b : Option Int) : Option Int :=
  match a with
  | some n => if n = 0 then b else some n
  | none => b

/-- Python `a or b` on optional datetimes: only `None` is falsy. -/
def pyOrDate (a b : Option PyDate) : Option PyDate :=
  match a with
  | some d => some d
  | none => b

/-! ### `accept_ocr_results` of `src/app/api/routes/receipts.py` (lines
333-475).  Control flow, in source order:
1. neither `category_id` nor `user_category_id` in the request →
   400 `category_not_specified` (UUID fields are falsy only when `None`);
2. `scalar_one()` on the draft query — no row raises `NoResultFound`, which
   the blanket handler turns into a 500 (the later `if not ocr_result` 404
   branch is unreachable);
3. draft already `ACCEPTED` → 400 `ocr_result_has_been_accepted`;
4. the draft row is mutated: status `ACCEPTED`, each extracted field
   replaced by `request.<field> or ocr_result.<field>`;
5. the category lookups run only for ids the request supplies, and the
   `if not category and not userCategory` test sees the truthy `Result`
   wrappers, not the rows, so `category_not_found` needs both queries
   skipped — impossible after check 1;
6. one `expense_history` row is inserted, carrying the request's category
   ids verbatim, and the request's items; errors roll the transaction back,
   success commits.
An error result leaves the database unchanged (the session is rolled back);
`ok` carries the new state and the fresh expense row's index. -/

/-- Step 4 above: the draft row as mutated before the expense is built. -/
def acceptedDraft (draft : Draft) (req : AcceptOCRRequest) : Draft :=
  { draft with
    status := .accepted
    merchantName := pyOrStr req.merchantName draft.merchantName
    totalAmount := pyOrInt req.totalAmount draft.totalAmount
    transactionDate := pyOrDate req.transactionDate draft.transactionDate
    paymentMethod := pyOrStr req.paymentMethod draft.paymentMethod }

/-- Step 6 above: the `expense_history` row built from the request and the
already-mutated draft row (lines 415-426; `ocr_result.<field>` there reads
the mutated values). -/
def acceptExpense (uid oid : Nat) (draft : Draft) (req : AcceptOCRRequest)
    (now : PyDate) : ExpenseRecord :=
  { userId := uid
    ocrId := some oid
    merchantName :=
      (pyOrStr req.merchantName (pyOrStr (acceptedDraft draft req).merchantName
        (some ("Unknown Merchant")))).getD ("Unknown Merchant")
    totalAmount :=
      (pyOrInt req.totalAmount (pyOrInt (acceptedDraft draft req).totalAmount (some 0))).getD 0
    transactionDate :=
      (pyOrDate req.transactionDate
        (pyOrDate (acceptedDraft draft req).transactionDate (some now))).getD now
    paymentMethod := pyOrStr req.paymentMethod (acceptedDraft draft req).paymentMethod
    categoryId := req.categoryId
    userCategoryId := req.userCategoryId
    notes := req.notes
    isManualEntry := false
    items := req.items }

/-- The database as committed by a successful accept: the draft row
replaced by its mutated version, the new expense row appended. -/
def acceptUpdateDB (db : AppDB) (uid oid : Nat) (draft : Draft)
    (req : AcceptOCRRequest) (now : PyDate) : AppDB :=
  { db with
    drafts := db.drafts.map
      (fun p => if draftKey oid uid p then (p.1, acceptedDraft draft req) else p)
    expenses := db.expenses ++ [acceptExpense uid oid draft req now] }

/-- Step 5's `category` variable: `None` when the request carries no
`category_id`, otherwise the executed query's result wrapper, holding the
(possibly empty) list of matching `categories` rows. -/
def categoryQueryRows (db : AppDB) : Option Nat → Option (List Nat)
  | some cid => some (db.categories.filter (· == cid))
  | none => none

/-- Step 5's `userCategory` variable, over `user_categories`. -/
def userCategoryQueryRows (db : AppDB) : Option Nat → Option (List Nat)
  | some ucid => some ((db.userCategories.map (·.1)).filter (· == ucid))
  | none => none

def accept_ocr_results (db : AppDB) (uid oid : Nat) (req : AcceptOCRRequest)
    (now : PyDate) : Except ApiError (AppDB × Nat) :=
  if req.categoryId = none ∧ req.userCategoryId = none then
    .error .categoryNotSpecified
  else
    match lookupDraft db oid uid with
    | none => .error .serverError
    | some draft =>
      if draft.status = .accepted then
        .error .invalidState
      else
        if categoryQueryRows db req.categoryId = none
            ∧ userCategoryQueryRows db req.userCategoryId = none then
          .error .categoryNotFound
        else
          .ok (acceptUpdateDB db uid oid draft req now, db.expenses.length)

/-! ## Upload route (`src/app/api/routes/receipts.py`, `upload_receipt_gemini`)

The extraction call and the category call are external; their outcomes are
inputs of the model.  `_parse_response` (`src/utils/gemini.py` lines
120-128) never raises: unparseable Gemini output becomes the dict
`{'error': ...}`, i.e. an `OcrData` with every field absent.  The draft row
is created and committed only AFTER the Gemini call; an exception raised
before that point is caught by the inner handler, after which line 139 reads
the never-assigned `ocr_result` — a `NameError` the outer handler turns into
a 500, with no draft committed.  An exception after the draft's commit is
caught, the response is built from the draft's in-memory status, and the
session dependency (`get_db` of `src/app/core/db.py`) commits the mutated
draft when the request returns without an HTTP error.  (The
`OCRResultItem` rows created after the draft mutations touch no claim and
are omitted.) -/

/-- The fields `upload_receipt_gemini` reads from the parsed Gemini
response dict via `.get(...)`; an absent key is `none`.  The unparseable
case `{'error': ...}` is the value with every field `none`. -/
structure OcrData where
  merchant_name : Option String := none
  total_amount : Option String := none
  transaction_date : Option String := none
  payment_method : Option String := none
deriving DecidableEq

/-- Outcome of the `preprocess_image` / `upload_to_gcs` /
`process_receipt_with_gemini` call sequence: an exception, or a parsed
response dict. -/
inductive ExtOutcome where
  | raised
  | parsed (data : OcrData)
deriving DecidableEq

/-- `find_category`'s parsed reply (`OCRResultCategory` of
`src/schemas/receipt.py`). -/
structure FindCategoryResult where
  category_id : Nat
  is_user_category : Bool
deriving DecidableEq

/-- The external world an upload request sees: the uploaded filename, the
storage URL, the extraction outcome, and `find_category`'s outcome (`none`
models a raised exception). -/
structure UploadEnv where
  filename : String
  gcs_url : String := ""
  ext : ExtOutcome
  find_cat : Option FindCategoryResult := none
deriving DecidableEq

/-- `file.filename.lower()[file.filename.rfind("."):]` — the lower-cased
suffix from the last dot, `""` when there is no dot. -/
def extSuffix : List Char → Option (List Char)
  | [] => none
  | c :: cs =>
    match extSuffix cs with
    | some r => some r
    | none => if c = '.' then some (c :: cs) else none

/-- The file extension the upload route validates. -/
def file_ext_of (filename : String) : String :=
  match extSuffix (filename.toList.map Char.toLower) with
  | some r => String.mk r
  | none => ""

/-- The route's `allowed_extensions`. -/
def allowed_extensions : List String := [".jpg", ".jpeg", ".png", ".pdf"]

/-- Append a freshly committed draft row. -/
def addDraft (db : AppDB) (oid : Nat) (d : Draft) : AppDB :=
  { db with drafts := db.drafts ++ [(oid, d)] }

/-- Line 83's date field:
`strptime(value, '%Y-%m-%d') if ocr_data.get('transaction_date') else None`.
`none` models the `ValueError` of a present, non-empty, unparseable value;
`some d?` the assigned value. -/
def parse_transaction_date : Option String → Option (Option PyDate)
  | none => some none
  | some s =>
    if s = "" then some none
    else
      match strptime fmt_Ymd_dash s with
      | some dt => some (some dt)
      | none => none

/-- `upload_receipt_gemini` (lines 36-164): returns the HTTP outcome — an
error response, or `(ocr_id, status)` — and the database as committed when
the request finishes.  `newId` is the `uuid4()` drawn for the draft. -/
def upload_receipt_gemini (db : AppDB) (uid newId : Nat) (env : UploadEnv) :
    Except ApiError (Nat × String) × AppDB :=
  if (allowed_extensions.contains (file_ext_of env.filename)) = false then
    (.error .validationError, db)
  else
    match env.ext with
    | .raised => (.error .serverError, db)
    | .parsed data =>
      let d0 : Draft := { userId := uid, imagePath := env.gcs_url, status := .pending }
      let d1 := { d0 with merchantName := some (data.merchant_name.getD ("Unknown")) }
      match pyInt? ((data.total_amount.getD ("0")).toList.filter (· ≠ '.')) with
      | none => (.ok (newId, "pending"), addDraft db newId d1)
      | some amt =>
        let d2 := { d1 with totalAmount := some amt }
        match parse_transaction_date data.transaction_date with
        | none => (.ok (newId, "pending"), addDraft db newId d2)
        | some dt? =>
          let d3 := { d2 with
            transactionDate := dt?
            paymentMethod := data.payment_method
            status := .processed }
          match env.find_cat with
          | none => (.ok (newId, "complete"), addDraft db newId d3)
          | some fc =>
            let d4 :=
              if fc.is_user_category then { d3 with userCategoryId := some fc.category_id }
              else { d3 with categoryId := some fc.category_id }
            (.ok (newId, "complete"), addDraft db newId d4)

/-! ## Helper lemmas about the accept route -/

/-- Updating the rows matching `draftKey` with a replacement draft that
still belongs to `uid` commutes with `find?`. -/
theorem find?_update_draftKey (l : List (Nat × Draft)) (oid uid : Nat) (d' : Draft)
    (hd : d'.userId = uid) :
    (l.map (fun p => if draftKey oid uid p then (p.1, d') else p)).find? (draftKey oid uid)
      = (l.find? (draftKey oid uid)).map (fun p => (p.1, d')) := by
  induction l with
  | nil => rfl
  | cons q tl ih =>
    by_cases hk : draftKey oid uid q
    · have hk' : draftKey oid uid (q.1, d') = true := by
        simp only [draftKey, Bool.and_eq_true, beq_iff_eq] at hk ⊢
        exact ⟨hk.1, hd⟩
      simp [hk, hk', List.find?_cons]
    · simp [hk, List.find?_cons, ih]

/-- The `category` result wrapper is `None` exactly when no `category_id`
was supplied: the executed query is truthy even with zero rows. -/
theorem categoryQueryRows_eq_none (db : AppDB) (o : Option Nat) :
    categoryQueryRows db o = none ↔ o = none := by
  cases o <;> simp [categoryQueryRows]

/-- Likewise for the `userCategory` result wrapper. -/
theorem userCategoryQueryRows_eq_none (db : AppDB) (o : Option Nat) :
    userCategoryQueryRows db o = none ↔ o = none := by
  cases o <;> simp [userCategoryQueryRows]

/-- A successful accept can only come from the final branch: some draft was
found, it was not yet accepted, and the result is exactly the updated
database and the fresh expense index. -/
theorem accept_ok_shape (db : AppDB) (uid oid : Nat) (req : AcceptOCRRequest)
    (now : PyDate) (db' : AppDB) (eid : Nat)
    (h : accept_ocr_results db uid oid req now = .ok (db', eid)) :
    ∃ draft, lookupDraft db oid uid = some draft ∧ draft.status ≠ .accepted ∧
      db' = acceptUpdateDB db uid oid draft req now ∧ eid = db.expenses.length := by
  by_cases hc : req.categoryId = none ∧ req.userCategoryId = none
  · simp [accept_ocr_results, hc] at h
  · cases hl : lookupDraft db oid uid with
    | none => simp [accept_ocr_results, hc, hl] at h
    | some draft =>
      by_cases hst : draft.status = .accepted
      · simp [accept_ocr_results, hc, hl, hst] at h
      · by_cases hrw : categoryQueryRows db req.categoryId = none
            ∧ userCategoryQueryRows db req.userCategoryId = none
        · simp [accept_ocr_results, hc, hl, hst, hrw] at h
        · simp [accept_ocr_results, hc, hl, hst, hrw] at h
          exact ⟨draft, rfl, hst, h.1.symm, h.2.symm⟩

/-- When a draft is found, it is not yet accepted, and the request supplies
at least one category id, accept succeeds with the updated database. -/
theorem accept_ok_of (db : AppDB) (uid oid : Nat) (req : AcceptOCRRequest)
    (now : PyDate) (draft : Draft)
    (hfound : lookupDraft db oid uid = some draft)
    (hst : draft.status ≠ .accepted)
    (hcat : req.categoryId ≠ none ∨ req.userCategoryId ≠ none) :
    accept_ocr_results db uid oid req now
      = .ok (acceptUpdateDB db uid oid draft req now, db.expenses.length) := by
  have hnc : ¬(req.categoryId = none ∧ req.userCategoryId = none) := by tauto
  have hrw : ¬(categoryQueryRows db req.categoryId = none
      ∧ userCategoryQueryRows db req.userCategoryId = none) := by
    rw [categoryQueryRows_eq_none, userCategoryQueryRows_eq_none]
    exact hnc
  simp [accept_ocr_results, hnc, hfound, hst, hrw]

/-! ## Concrete fixtures for witnesses and counterexamples -/

def now0 : PyDate := ⟨2025, 6, 15⟩

def draftAcc : Draft := { userId := 1, status := .accepted }
def draftPend : Draft := { userId := 1, status := .pending }
def draftRej : Draft := { userId := 1, status := .rejected }
def draftProc : Draft := { userId := 1, status := .processed }
def draftProcCat : Draft := { userId := 1, status := .processed, categoryId := some 5 }

def dbAcc : AppDB := { drafts := [(1, draftAcc)], expenses := [], categories := [5], userCategories := [] }
def dbPend : AppDB := { drafts := [(1, draftPend)], expenses := [], categories := [], userCategories := [] }
def dbRej : AppDB := { drafts := [(1, draftRej)], expenses := [], categories := [5], userCategories := [] }
def dbProc : AppDB := { drafts := [(1, draftProc)], expenses := [], categories := [5], userCategories := [] }
def dbProcCat : AppDB :=
  { drafts := [(1, draftProcCat)], expenses := [], categories := [5], userCategories := [(9, 1)] }
def dbEmpty : AppDB := { drafts := [], expenses := [], categories := [], userCategories := [] }

def reqCat : AcceptOCRRequest := { categoryId := some 5 }
def reqEmptyCat : AcceptOCRRequest := {}
def reqBoth : AcceptOCRRequest := { categoryId := some 5, userCategoryId := some 9 }

def envRaised : UploadEnv := { filename := "receipt.jpg", ext := .raised }
def envUnparseable : UploadEnv :=
  { filename := "receipt.jpg", ext := .parsed {}, find_cat := some ⟨3, false⟩ }

/-! ## The claims -/

/-- C1. Accept on an already-ACCEPTED draft always fails and never reaches
the expense-creating branch, so a draft is accepted at most once; but the
failure is `ocr_result_has_been_accepted` (the `InvalidStateError`) only
when the request supplies a category id — a category-less second accept
fails earlier, with the `category_not_specified` validation error. -/
theorem c1_accept_already_accepted_fails
    (db : AppDB) (uid oid : Nat) (req : AcceptOCRRequest) (now : PyDate) (draft : Draft)
    (hfound : lookupDraft db oid uid = some draft)
    (hacc : draft.status = .accepted) :
    accept_ocr_results db uid oid req now =
      .error (if req.categoryId = none ∧ req.userCategoryId = none
        then .categoryNotSpecified else .invalidState) := by
  by_cases hc : req.categoryId = none ∧ req.userCategoryId = none
  · simp [accept_ocr_results, hc]
  · simp [accept_ocr_results, hc, hfound, hacc]

/-- C1, witness: a second accept of an accepted draft, with a category in
the request, fails with the invalid-state error. -/
theorem c1_accept_already_accepted_witness :
    accept_ocr_results dbAcc 1 1 reqCat now0 = .error .invalidState := by
  have h := c1_accept_already_accepted_fails dbAcc 1 1 reqCat now0 draftAcc rfl rfl
  simpa [reqCat] using h

/-- C1, counterexample to the claim as stated: on an accepted draft, an
accept request without any category id fails with `category_not_specified`,
not with the invalid-state error the claim names. -/
theorem c1_double_accept_error_code_cex :
    lookupDraft dbAcc 1 1 = some draftAcc ∧ draftAcc.status = .accepted ∧
    accept_ocr_results dbAcc 1 1 reqEmptyCat now0 = .error .categoryNotSpecified ∧
    ApiError.categoryNotSpecified ≠ ApiError.invalidState :=
  ⟨rfl, rfl, rfl, by decide⟩

/-- C3. The accept transition's only guard is `status == ACCEPTED`: accept
succeeds exactly on drafts whose status is not ACCEPTED (so also from
PENDING and from REJECTED), and a successful accept leaves the stored draft
ACCEPTED. -/
theorem c3_accept_state_transitions
    (db : AppDB) (uid oid : Nat) (req : AcceptOCRRequest) (now : PyDate) (draft : Draft)
    (hfound : lookupDraft db oid uid = some draft)
    (hcat : req.categoryId ≠ none ∨ req.userCategoryId ≠ none) :
    ((∃ r, accept_ocr_results db uid oid req now = .ok r) ↔ draft.status ≠ .accepted) ∧
    (∀ db' eid, accept_ocr_results db uid oid req now = .ok (db', eid) →
      (lookupDraft db' oid uid).map Draft.status = some .accepted) := by
  have huid : draft.userId = uid := by
    unfold lookupDraft at hfound
    obtain ⟨pr, hpr, hpr2⟩ := Option.map_eq_some'.mp hfound
    have hk := List.find?_some hpr
    simp only [draftKey, Bool.and_eq_true, beq_iff_eq] at hk
    rw [← hpr2]
    exact hk.2
  constructor
  · constructor
    · rintro ⟨⟨db2, eid⟩, hr⟩
      obtain ⟨d2, hl2, hst2, _, _⟩ := accept_ok_shape db uid oid req now db2 eid hr
      rw [hfound] at hl2
      cases hl2
      exact hst2
    · intro hst
      exact ⟨_, accept_ok_of db uid oid req now draft hfound hst hcat⟩
  · intro db2 eid hr
    obtain ⟨d2, hl2, hst2, hdb, _⟩ := accept_ok_shape db uid oid req now db2 eid hr
    rw [hfound] at hl2
    cases hl2
    subst hdb
    have hud : (acceptedDraft draft req).userId = uid := huid
    simp only [lookupDraft, acceptUpdateDB]
    rw [find?_update_draftKey db.drafts oid uid (acceptedDraft draft req) hud]
    unfold lookupDraft at hfound
    obtain ⟨pr, hpr, _⟩ := Option.map_eq_some'.mp hfound
    rw [hpr]
    simp [acceptedDraft]

/-- C3, witness: on a PROCESSED draft with a category supplied, accept
succeeds and the stored draft ends up ACCEPTED. -/
theorem c3_accept_state_transitions_witness :
    ((∃ r, accept_ocr_results dbProc 1 1 reqCat now0 = .ok r) ↔ draftProc.status ≠ .accepted) ∧
    (∀ db2 eid, accept_ocr_results dbProc 1 1 reqCat now0 = .ok (db2, eid) →
      (lookupDraft db2 1 1).map Draft.status = some .accepted) :=
  c3_accept_state_transitions dbProc 1 1 reqCat now0 draftProc rfl (Or.inl (by decide))

/-- C3, counterexample to the claim as stated: accept succeeds on a PENDING
draft and on a REJECTED draft, so accept is not restricted to PROCESSED
drafts, PENDING can reach ACCEPTED directly, and REJECTED has an outgoing
transition. -/
theorem c3_accept_from_pending_cex :
    lookupDraft dbPend 1 1 = some draftPend ∧ draftPend.status = .pending ∧
    (∃ r, accept_ocr_results dbPend 1 1 reqCat now0 = .ok r) ∧
    lookupDraft dbRej 1 1 = some draftRej ∧ draftRej.status = .rejected ∧
    (∃ r, accept_ocr_results dbRej 1 1 reqCat now0 = .ok r) :=
  ⟨rfl, rfl, ⟨_, rfl⟩, rfl, rfl, ⟨_, rfl⟩⟩

/-- C4. The `category_not_specified` failure depends on the request alone:
accept fails with it exactly when the request supplies neither a system nor
a user category id — whatever category the draft itself carries. -/
theorem c4_category_check_request_only
    (db : AppDB) (uid oid : Nat) (req : AcceptOCRRequest) (now : PyDate) :
    accept_ocr_results db uid oid req now = .error .categoryNotSpecified
      ↔ (req.categoryId = none ∧ req.userCategoryId = none) := by
  constructor
  · intro h
    by_contra hc
    cases hl : lookupDraft db oid uid with
    | none => simp [accept_ocr_results, hc, hl] at h
    | some draft =>
      by_cases hst : draft.status = .accepted
      · simp [accept_ocr_results, hc, hl, hst] at h
      · by_cases hrw : categoryQueryRows db req.categoryId = none
            ∧ userCategoryQueryRows db req.userCategoryId = none
        · simp [accept_ocr_results, hc, hl, hst, hrw] at h
        · simp [accept_ocr_results, hc, hl, hst, hrw] at h
  · intro hc
    simp [accept_ocr_results, hc]

/-- C4, counterexample to the claim as stated: a PROCESSED draft that
itself carries a system category still fails accept with
`category_not_specified` when the request supplies no category id — the
draft's category is never consulted. -/
theorem c4_draft_category_ignored_cex :
    lookupDraft dbProcCat 1 1 = some draftProcCat ∧
    draftProcCat.categoryId = some 5 ∧ draftProcCat.status = .processed ∧
    accept_ocr_results dbProcCat 1 1 reqEmptyCat now0 = .error .categoryNotSpecified :=
  ⟨rfl, rfl, rfl, rfl⟩

/-- Mutual exclusivity of a draft's category columns: at most one set. -/
def catExclusive (d : Draft) : Prop := d.categoryId = none ∨ d.userCategoryId = none

/-- C9 (amended). Draft rows stay mutually exclusive: an upload assigns at
most one of the two category columns, and accept does not touch the
draft's category columns.  The accepted expense, however, copies the
request's two ids verbatim — so it is exclusive only when the request
supplies at most one id. -/
theorem c9_category_fields
    (db : AppDB) (uid oid newId : Nat) (env : UploadEnv) (req : AcceptOCRRequest)
    (now : PyDate) (db' : AppDB) (eid : Nat)
    (hdb : ∀ p ∈ db.drafts, catExclusive p.2) :
    (∀ p ∈ (upload_receipt_gemini db uid newId env).2.drafts, catExclusive p.2) ∧
    (accept_ocr_results db uid oid req now = .ok (db', eid) →
      (∀ p ∈ db'.drafts, catExclusive p.2) ∧
      ∃ e, db'.expenses = db.expenses ++ [e] ∧
        e.categoryId = req.categoryId ∧ e.userCategoryId = req.userCategoryId) := by
  constructor
  · intro p hp
    unfold upload_receipt_gemini at hp
    split at hp
    · exact hdb p hp
    · split at hp
      · exact hdb p hp
      · split at hp
        · simp only [addDraft, List.mem_append, List.mem_singleton] at hp
          rcases hp with hp | hp
          · exact hdb p hp
          · subst hp; exact Or.inl rfl
        · split at hp
          · simp only [addDraft, List.mem_append, List.mem_singleton] at hp
            rcases hp with hp | hp
            · exact hdb p hp
            · subst hp; exact Or.inl rfl
          · split at hp
            · simp only [addDraft, List.mem_append, List.mem_singleton] at hp
              rcases hp with hp | hp
              · exact hdb p hp
              · subst hp; exact Or.inl rfl
            · split at hp
              · simp only [addDraft, List.mem_append, List.mem_singleton] at hp
                rcases hp with hp | hp
                · exact hdb p hp
                · subst hp; exact Or.inl rfl
              · simp only [addDraft, List.mem_append, List.mem_singleton] at hp
                rcases hp with hp | hp
                · exact hdb p hp
                · subst hp; exact Or.inr rfl
  · intro hok
    obtain ⟨draft, hfound, _, hdb', heid⟩ := accept_ok_shape db uid oid req now db' eid hok
    subst hdb'
    constructor
    · intro p hp
      simp only [acceptUpdateDB, List.mem_map] at hp
      obtain ⟨q, hq, hfq⟩ := hp
      by_cases hk : draftKey oid uid q
      · rw [if_pos hk] at hfq
        subst hfq
        have hmem : draft ∈ db.drafts.map (·.2) := by
          unfold lookupDraft at hfound
          obtain ⟨pr, hpr, hpr2⟩ := Option.map_eq_some'.mp hfound
          exact hpr2 ▸ List.mem_map_of_mem _ (List.mem_of_find?_eq_some hpr)
        obtain ⟨pr, hpr, hpr2⟩ := List.mem_map.mp hmem
        rcases hpr2 ▸ hdb pr hpr with h | h
        · exact Or.inl h
        · exact Or.inr h
      · rw [if_neg hk] at hfq
        subst hfq
        exact hdb q hq
    · exact ⟨acceptExpense uid oid draft req now, rfl, rfl, rfl⟩

/-- C9, counterexample to the claim as stated: an accept request supplying
BOTH a system and a user category id yields an accepted expense with both
columns set. -/
theorem c9_both_categories_cex :
    reqBoth.categoryId = some 5 ∧ reqBoth.userCategoryId = some 9 ∧
    (accept_ocr_results dbProcCat 1 1 reqBoth now0).map
        (fun r => r.1.expenses.map (fun e => (e.categoryId, e.userCategoryId)))
      = .ok [(some 5, some 9)] :=
  ⟨rfl, rfl, rfl⟩

/-- C10. The `category_not_found` branch is unreachable — no run of accept
returns it — because the branch tests the truthy query-result wrappers, not
the fetched rows; and accept succeeds (creating the expense) whenever a
non-accepted draft exists and the request names at least one category id,
even one absent from the category tables. -/
theorem c10_category_not_found_unreachable :
    (∀ (db : AppDB) (uid oid : Nat) (req : AcceptOCRRequest) (now : PyDate),
      accept_ocr_results db uid oid req now ≠ .error .categoryNotFound) ∧
    (∀ (db : AppDB) (uid oid : Nat) (req : AcceptOCRRequest) (now : PyDate) (draft : Draft),
      lookupDraft db oid uid = some draft → draft.status ≠ .accepted →
      req.categoryId ≠ none ∨ req.userCategoryId ≠ none →
      ∃ db' eid, accept_ocr_results db uid oid req now = .ok (db', eid) ∧
        db'.expenses.length = db.expenses.length + 1) := by
  constructor
  · intro db uid oid req now h
    by_cases hc : req.categoryId = none ∧ req.userCategoryId = none
    · simp [accept_ocr_results, hc] at h
    · have hrw : ¬(categoryQueryRows db req.categoryId = none
          ∧ userCategoryQueryRows db req.userCategoryId = none) := by
        rw [categoryQueryRows_eq_none, userCategoryQueryRows_eq_none]
        exact hc
      cases hl : lookupDraft db oid uid with
      | none => simp [accept_ocr_results, hc, hl] at h
      | some draft =>
        by_cases hst : draft.status = .accepted
        · simp [accept_ocr_results, hc, hl, hst] at h
        · simp [accept_ocr_results, hc, hl, hst, hrw] at h
  · intro db uid oid req now draft hfound hst hcat
    refine ⟨_, _, accept_ok_of db uid oid req now draft hfound hst hcat, ?_⟩
    simp [acceptUpdateDB]

/-- C10, witness: with an empty `categories` table and a request naming the
nonexistent system category `5`, accept still succeeds with one new
expense, and never returns `category_not_found`. -/
theorem c10_category_not_found_witness :
    dbPend.categories = [] ∧ reqCat.categoryId = some 5 ∧
    accept_ocr_results dbPend 1 1 reqCat now0 ≠ .error .categoryNotFound ∧
    (∃ db' eid, accept_ocr_results dbPend 1 1 reqCat now0 = .ok (db', eid) ∧
      db'.expenses.length = dbPend.expenses.length + 1) :=
  ⟨rfl, rfl, c10_category_not_found_unreachable.1 dbPend 1 1 reqCat now0,
    c10_category_not_found_unreachable.2 dbPend 1 1 reqCat now0 draftPend rfl
      (by decide) (Or.inl (by decide))⟩

/-- C2 (code bug).  When the extraction call raises, `upload_receipt_gemini`
reaches the response branch with `ocr_result` never assigned: the
`NameError` escalates to a 500 `server_error` with NO draft row committed —
not the promised draft id with a PENDING draft.  And when extraction merely
returns unparseable output, the committed draft is PROCESSED with defaulted
fields (merchant `Unknown`, amount `0`), not PENDING with null fields. -/
theorem c2_upload_extraction_failure :
    upload_receipt_gemini dbEmpty 7 42 envRaised = (.error .serverError, dbEmpty) ∧
    (upload_receipt_gemini dbEmpty 7 42 envRaised).2.drafts = [] ∧
    (upload_receipt_gemini dbEmpty 7 42 envUnparseable).1 = .ok (42, "complete") ∧
    ((upload_receipt_gemini dbEmpty 7 42 envUnparseable).2.drafts.map
        (fun p => (p.1, p.2.status, p.2.merchantName, p.2.totalAmount)))
      = [(42, ReceiptStatus.processed, some ("Unknown"), some 0)] :=
  ⟨rfl, rfl, rfl, rfl⟩

/-- C5 (code bug).  In the branch where both `,` and `.` occur, the source
keeps the separator occurring EARLIER as the decimal separator (its
comparison `index(',') > index('.')` strips the comma exactly when the comma
comes later), the opposite of the claimed rule: both `1.234,56` and
`1,234.56` become `1.23456` where the claimed rule yields `1234.56`. -/
theorem c5_separator_branch_swapped :
    validate_amount_str ("1.234,56") = "1.23456" ∧
    validate_amount_str ("1,234.56") = "1.23456" ∧
    spec_amount_separator_rule ("1.234,56") = "1234.56" ∧
    spec_amount_separator_rule ("1,234.56") = "1234.56" ∧
    validate_amount_str ("1.234,56") ≠ spec_amount_separator_rule ("1.234,56") :=
  ⟨by decide, by decide, by decide, by decide, by decide⟩

/-- C6.  The EU and US writings of the same amount normalize to the same
canonical value, and the empty string normalizes to zero. -/
theorem c6_amount_locale_invariant :
    normalize_amount ("1.234,56") = normalize_amount ("1,234.56") ∧
    normalize_amount ("") = 0 :=
  ⟨rfl, rfl⟩

/-- If every format fails on `s`, the format loop yields nothing. -/
theorem tryDateFormats_eq_none (fs : List (List DTok)) (s : String)
    (h : ∀ f ∈ fs, strptime f s = none) : tryDateFormats fs s = none := by
  induction fs with
  | nil => rfl
  | cons f fs ih =>
    simp only [tryDateFormats, h f (by simp)]
    exact ih (fun g hg => h g (by simp [hg]))

/-- C7 (amended).  Date normalization is total and deterministic over the
fixed ordered format list: when no format matches, the current date is
returned (never an exception); and the FIRST matching format wins — in
particular, since `%m/%d/%Y` precedes `%d/%m/%Y` in the list, the
month-first (not day-first) reading is preferred on ambiguous dates. -/
theorem c7_date_normalization (s : String) (today : PyDate) :
    ((∀ f ∈ date_formats, strptime f s = none) → validate_date s today = canonDate today) ∧
    (∀ r, strptime fmt_mdY_slash s = some r → validate_date s today = canonDate r) := by
  constructor
  · intro hall
    unfold validate_date
    by_cases hs : s = ""
    · simp [hs]
    · rw [if_neg hs, tryDateFormats_eq_none date_formats s hall]
  · intro r hr
    have hs : s ≠ "" := by
      intro hs
      rw [hs] at hr
      have hnone : strptime fmt_mdY_slash "" = none := rfl
      rw [hnone] at hr
      cases hr
    unfold validate_date
    rw [if_neg hs]
    have : tryDateFormats date_formats s = some r := by
      show tryDateFormats (fmt_mdY_slash :: _) s = some r
      simp [tryDateFormats, hr]
    rw [this]

/-- C7, witness: a string matching no format falls back to the given
current date, and `03/04/2025` — ambiguous between month-first and
day-first — takes the month-first reading March 4. -/
theorem c7_date_normalization_witness :
    validate_date ("gibberish") ⟨2025, 6, 15⟩ = canonDate ⟨2025, 6, 15⟩ ∧
    validate_date ("03/04/2025") ⟨2025, 6, 15⟩ = canonDate ⟨2025, 3, 4⟩ :=
  ⟨(c7_date_normalization ("gibberish") ⟨2025, 6, 15⟩).1 (by decide),
   (c7_date_normalization ("03/04/2025") ⟨2025, 6, 15⟩).2 ⟨2025, 3, 4⟩ (by decide)⟩

/-- C7, counterexample to the claim as stated: the ambiguous `01/02/2025`
normalizes to January 2 (`%m/%d/%Y` is tried first), not to the day-first
reading February 1 the claim requires. -/
theorem c7_day_first_preference_cex :
    validate_date ("01/02/2025") ⟨2024, 5, 17⟩ = "2025-01-02" ∧
    ("2025-01-02" : String) ≠ "2025-02-01" :=
  ⟨by decide, by decide⟩

/-- Exit condition of the halving loop: it stops only once the encoding
fits the ceiling or a dimension has reached the 50-pixel floor (the
`cannot resize further` guard never fires above the floor). -/
theorem halveLoop_size_or_floor (enc : Nat → Nat → Nat) :
    ∀ w h, enc (halveLoop enc w h).1 (halveLoop enc w h).2 ≤ sizeCeiling
      ∨ (halveLoop enc w h).1 ≤ 50 ∨ (halveLoop enc w h).2 ≤ 50 := by
  intro w
  induction w using Nat.strong_induction_on with
  | _ w ih =>
    intro h
    rw [halveLoop]
    split
    · next hsz => exact Or.inl hsz
    · split
      · next hdim => exact Or.inr hdim
      · split
        · next hdim hmax =>
          exfalso
          simp only [not_or, not_le] at hdim
          obtain ⟨hw, _⟩ := hmax
          omega
        · next hdim hmax =>
          refine ih (max 1 (w / 2)) ?_ (max 1 (h / 2))
          simp only [not_or, not_le] at hdim
          omega

/-- C8.  For every decodable image and every encoder, the preprocessor
terminates (it is a total function) with non-empty output that either fits
the 400KB ceiling or has a dimension at the 50-pixel floor. -/
theorem c8_preprocess_size_or_floor (enc : Nat → Nat → Nat) (w h : Nat)
    (hpos : ∀ a b, 0 < enc a b) :
    (enc (preprocess_image_dims enc w h).1 (preprocess_image_dims enc w h).2 ≤ sizeCeiling
      ∨ (preprocess_image_dims enc w h).1 ≤ 50 ∨ (preprocess_image_dims enc w h).2 ≤ 50)
    ∧ 0 < enc (preprocess_image_dims enc w h).1 (preprocess_image_dims enc w h).2 := by
  refine ⟨?_, hpos _ _⟩
  unfold preprocess_image_dims
  split
  · exact halveLoop_size_or_floor enc _ _
  · exact halveLoop_size_or_floor enc _ _

/-- A concrete PNG-size stand-in: one byte per pixel plus a 67-byte header
(positive everywhere, as a PNG encoding always is). -/
def encQuad : Nat → Nat → Nat := fun a b => a * b + 67

/-- C8, witness: at 2000×2000 with the `encQuad` encoder the preprocessor
ends at or under the ceiling or at the floor, with non-empty output. -/
theorem c8_preprocess_size_or_floor_witness :
    (encQuad (preprocess_image_dims encQuad 2000 2000).1
        (preprocess_image_dims encQuad 2000 2000).2 ≤ sizeCeiling
      ∨ (preprocess_image_dims encQuad 2000 2000).1 ≤ 50
      ∨ (preprocess_image_dims encQuad 2000 2000).2 ≤ 50)
    ∧ 0 < encQuad (preprocess_image_dims encQuad 2000 2000).1
        (preprocess_image_dims encQuad 2000 2000).2 :=
  c8_preprocess_size_or_floor encQuad 2000 2000
    (fun a b => Nat.lt_of_lt_of_le (by norm_num) (Nat.le_add_left 67 (a * b)))

/-- C9, witness: starting from the empty database (vacuously exclusive),
the upload and accept conclusions hold at concrete inputs. -/
theorem c9_category_fields_witness :
    (∀ p ∈ (upload_receipt_gemini dbEmpty 7 42 envUnparseable).2.drafts, catExclusive p.2) ∧
    (accept_ocr_results dbEmpty 7 1 reqCat now0 = .ok (dbEmpty, 0) →
      (∀ p ∈ dbEmpty.drafts, catExclusive p.2) ∧
      ∃ e, dbEmpty.expenses = dbEmpty.expenses ++ [e] ∧
        e.categoryId = reqCat.categoryId ∧ e.userCategoryId = reqCat.userCategoryId) :=
  c9_category_fields dbEmpty 7 1 42 envUnparseable reqCat now0 dbEmpty 0
    (fun p hp => absurd hp (by simp [dbEmpty]))
